import Mathlib

/-!
Shallow embedding of the minetest audio system (src/audio.cpp).

The program manages decoded sound buffers, named playback sources and
ambient-slot registries on top of OpenAL.  External capabilities (the
filesystem, the Ogg Vorbis decoder, the OpenAL device) are modelled as a
read-only environment `Env`; the mutable process state (the static decode
cache, the registries of the `Audio` singleton, the listener vector) is the
state record `AudioState`.  Calls into the device that the claims observe
(decode attempts, upload errors, play and stop calls on ambient sounds) are
recorded in an event log.
-/

set_option autoImplicit false

namespace MinetestAudio

/-- `AL_FORMAT_MONO16` versus `AL_FORMAT_STEREO16` (audio.cpp lines 110-113). -/
inductive ALFormat where
  | mono16
  | stereo16
deriving DecidableEq, Repr

/-- Outcome of one `ov_read` call: a negative byte count (error) or a chunk of
decoded bytes (a zero-length chunk signals end of stream). -/
inductive ReadChunk where
  | err
  | chunk (data : List Int)
deriving DecidableEq, Repr

/-- Abstraction of one Ogg file as seen through the decoder capability:
whether `ov_fopen` succeeds, the stream metadata from `ov_info`
(channel count and rate), and the successive `ov_read` outcomes. -/
structure OggFile where
  openOk : Bool
  channels : Nat
  rate : Nat
  reads : List ReadChunk
deriving DecidableEq, Repr

/-- Read-only environment: the filesystem (`fs::PathExists` is membership in
`files`), the decoder behaviour per path, whether `alGetError` reports an
error after the buffer upload for a given path, and the outcomes of the
OpenAL device and context setup calls made by the `Audio` constructor. -/
structure Env where
  files : List String
  ogg : String → OggFile
  uploadError : String → Bool
  deviceOk : Bool
  contextOk : Bool
  makeCurrentOk : Bool

/-- In-process decoded sound record (class `SoundBuffer`): format, sample
rate, decoded byte payload and the device buffer handle from `alGenBuffers`. -/
structure SoundBuffer where
  format : ALFormat
  freq : Nat
  buffer : List Int
  bufferID : Nat
deriving DecidableEq, Repr

/-- A `SoundSource` object: allocation identity `sid` (C++ object address),
the bound buffer (`m_buffer`, absent for the inert placeholder) and the
relative flag. -/
structure SoundSrc where
  sid : Nat
  m_buffer : Option SoundBuffer
  m_relative : Bool
deriving DecidableEq, Repr

/-- Modelled from the spec: class `AmbientSound` is declared in audio.h,
which is not part of src/.  Per the spec it wraps an exclusively owned
`SoundSource` and a `playing` flag whose transitions happen only through
`play()` and `stop()`; a source with an absent buffer is an inert
placeholder on which all playback operations are no-ops (the `_SOURCE_CHECK`
guard that audio.cpp line 164 says is also defined in audio.h). -/
structure Ambient where
  srcBuf : Option SoundBuffer
  playing : Bool
deriving DecidableEq, Repr

/-- Device and instrumentation events the claims observe: a decode attempt
on a path, a logged upload error, and `play`/`stop` calls on an
`AmbientSound` identified by its allocation id. -/
inductive Event where
  | decode (fname : String)
  | uploadErr (fname : String)
  | play (aid : Nat)
  | stop (aid : Nat)
deriving DecidableEq, Repr

/-- Process state: availability of the device and context (`isAvailable()`),
the sound search path `m_path`, the static decode cache
`SoundBuffer::cache`, the named source registry `m_sound_source`, the heap
of allocated `AmbientSound` objects (allocation id to object), the ambient
registry `m_ambient_sound` (name to allocation id) and slot registry
`m_ambient_slot` (slot to allocation id), the listener vector `m_listener`,
allocation counters, and the event log. -/
structure AudioState where
  available : Bool
  m_path : String
  cache : List (String × SoundBuffer)
  m_sound_source : List (String × SoundSrc)
  ambientHeap : List (Nat × Ambient)
  m_ambient_sound : List (String × Nat)
  m_ambient_slot : List (String × Nat)
  m_listener : List Int
  nextBufID : Nat
  nextId : Nat
  events : List Event
deriving DecidableEq, Repr

/-- Lookup in an association list (the `find` operation of `core::map`). -/
def alookup {κ α : Type} [DecidableEq κ] : List (κ × α) → κ → Option α
  | [], _ => none
  | (k, v) :: rest, key => if k = key then some v else alookup rest key

/-- Insert-or-overwrite in an association list (`core::map::operator[]`
assignment). -/
def aset {κ α : Type} [DecidableEq κ] : List (κ × α) → κ → α → List (κ × α)
  | [], key, v => [(key, v)]
  | (k, w) :: rest, key, v =>
    if k = key then (k, v) :: rest else (k, w) :: aset rest key v

/-- The decode loop of `SoundBuffer::loadOggFile` (audio.cpp lines 119-133):
repeatedly `ov_read`; a negative byte count aborts with failure, chunks are
appended in order, and a zero-byte read ends the stream.  `none` also
covers an exhausted trace, which a real decoder never produces. -/
def readLoop : List ReadChunk → Option (List Int)
  | [] => none
  | ReadChunk.err :: _ => none
  | ReadChunk.chunk data :: rest =>
    if data = [] then some []
    else
      match readLoop rest with
      | none => none
      | some tail => some (data ++ tail)

/-- `SoundBuffer::loadOggFile` (audio.cpp lines 80-156): cache hit returns
the cached object; otherwise open the file, classify channels, copy the
rate, run the decode loop, upload to a fresh device buffer (an upload error
is only logged), insert into the cache and return the new buffer. -/
def loadOggFile (env : Env) (st : AudioState) (fname : String) :
    Option SoundBuffer × AudioState :=
  match alookup st.cache fname with
  | some snd => (some snd, st)
  | none =>
    if (env.ogg fname).openOk = false then
      (none, st)
    else
      let st1 : AudioState := { st with events := st.events ++ [Event.decode fname] }
      let format : ALFormat :=
        if (env.ogg fname).channels = 1 then ALFormat.mono16 else ALFormat.stereo16
      match readLoop (env.ogg fname).reads with
      | none => (none, st1)
      | some data =>
        let snd : SoundBuffer :=
          { format := format, freq := (env.ogg fname).rate,
            buffer := data, bufferID := st1.nextBufID }
        let st2 : AudioState :=
          { st1 with
            nextBufID := st1.nextBufID + 1,
            events := st1.events ++
              (if env.uploadError fname then [Event.uploadErr fname] else []),
            cache := aset st1.cache fname snd }
        (some snd, st2)

/-- The `LOADER_VORBIS` tag (enum `LoaderFormat`, audio.cpp lines 305-309). -/
def LOADER_VORBIS : Nat := 0

/-- The `LOADER_WAV` tag. -/
def LOADER_WAV : Nat := 1

/-- The `LOADER_UNK` tag. -/
def LOADER_UNK : Nat := 2

/-- The extension table (audio.cpp lines 311-313). -/
def extensions : List String := ["ogg", "wav"]

/-- The candidate loop of `Audio::findSoundFile`: try `base ++ ext` for each
extension, incrementing the format tag, returning the first existing
candidate, or the empty string after the table is exhausted. -/
def findLoop (env : Env) (base : String) : List String → Nat → String × Nat
  | [], fmt => ("", fmt)
  | ext :: rest, fmt =>
    if (base ++ ext) ∈ env.files then (base ++ ext, fmt)
    else findLoop env base rest (fmt + 1)

/-- `Audio::findSoundFile` (audio.cpp lines 315-331). -/
def findSoundFile (env : Env) (path basename : String) : String × Nat :=
  findLoop env (path ++ basename ++ ".") extensions LOADER_VORBIS

/-- `Audio::loadSound` (audio.cpp lines 463-491): no-op `NULL` when the
system is unavailable; resolve the file; empty path means not found; only
the `LOADER_VORBIS` case has a loader, everything else logs and returns
`NULL`. -/
def loadSound (env : Env) (st : AudioState) (basename : String) :
    Option SoundBuffer × AudioState :=
  if st.available = false then (none, st)
  else
    let r := findSoundFile env st.m_path basename
    if r.1 = "" then (none, st)
    else if r.2 = LOADER_VORBIS then loadOggFile env st r.1
    else (none, st)

/-- Modelled from the spec: `AmbientSound::isPlaying()` lives in audio.h
(not in src/); it reports the playing flag, false for an unallocated id. -/
def ambIsPlaying (st : AudioState) (aid : Nat) : Bool :=
  match alookup st.ambientHeap aid with
  | some a => a.playing
  | none => false

/-- Modelled from the spec: `AmbientSound::play()` lives in audio.h (not in
src/).  The call is recorded in the event log; the playing flag only
changes when the owned source has a buffer (playback operations on an empty
source are no-ops). -/
def ambPlay (st : AudioState) (aid : Nat) : AudioState :=
  let st1 : AudioState := { st with events := st.events ++ [Event.play aid] }
  match alookup st1.ambientHeap aid with
  | some a =>
    if a.srcBuf.isSome then
      { st1 with ambientHeap := aset st1.ambientHeap aid { a with playing := true } }
    else st1
  | none => st1

/-- Modelled from the spec: `AmbientSound::stop()`, dual to `ambPlay`. -/
def ambStop (st : AudioState) (aid : Nat) : AudioState :=
  let st1 : AudioState := { st with events := st.events ++ [Event.stop aid] }
  match alookup st1.ambientHeap aid with
  | some a =>
    if a.srcBuf.isSome then
      { st1 with ambientHeap := aset st1.ambientHeap aid { a with playing := false } }
    else st1
  | none => st1

/-- `Audio::getAmbientSound` (audio.cpp lines 333-354): `NULL` when
unavailable; return the cached ambient for the name if present; otherwise
load the sound, failing with `NULL` if it does not resolve, else allocate a
new `AmbientSound` and register it under the name. -/
def getAmbientSound (env : Env) (st : AudioState) (basename : String) :
    Option Nat × AudioState :=
  if st.available = false then (none, st)
  else
    match alookup st.m_ambient_sound basename with
    | some aid => (some aid, st)
    | none =>
      let r := loadSound env st basename
      match r.1 with
      | none => (none, r.2)
      | some data =>
        let aid := r.2.nextId
        let st2 : AudioState :=
          { r.2 with
            nextId := aid + 1,
            ambientHeap := aset r.2.ambientHeap aid { srcBuf := some data, playing := false },
            m_ambient_sound := aset r.2.m_ambient_sound basename aid }
        (some aid, st2)

/-- The tail of `Audio::setAmbient` (audio.cpp lines 374-389): when the new
sound resolved, play it if the previous occupant was playing or autoplay is
requested, and install it in the slot; otherwise install the empty-string
placeholder ambient sound.  When the placeholder was never seeded (init not
called), `operator[]` of the irrlicht map default-constructs a null entry,
modelled with the sentinel id 0. -/
def setAmbientFinish (st : AudioState) (slotname : String) (snd : Option Nat)
    (wasPlaying autoplay : Bool) : AudioState :=
  match snd with
  | some aid =>
    let st1 := if wasPlaying || autoplay then ambPlay st aid else st
    { st1 with m_ambient_slot := aset st1.m_ambient_slot slotname aid }
  | none =>
    match alookup st.m_ambient_sound "" with
    | some pid => { st with m_ambient_slot := aset st.m_ambient_slot slotname pid }
    | none =>
      { st with
        m_ambient_sound := aset st.m_ambient_sound "" 0,
        m_ambient_slot := aset st.m_ambient_slot slotname 0 }

/-- `Audio::setAmbient` (audio.cpp lines 356-390): no-op when unavailable;
resolve the ambient sound; if the slot already holds exactly that sound,
return; otherwise capture whether the previous occupant was playing, stop
it if so, and finish with `setAmbientFinish`.  With no previous occupant,
`was_playing` keeps its initial value `autoplay`. -/
def setAmbient (env : Env) (st : AudioState) (slotname basename : String)
    (autoplay : Bool) : AudioState :=
  if st.available = false then st
  else
    let r := getAmbientSound env st basename
    match alookup r.2.m_ambient_slot slotname with
    | some oldaid =>
      if r.1 = some oldaid then r.2
      else
        let wasPlaying := ambIsPlaying r.2 oldaid
        let st2 := if wasPlaying then ambStop r.2 oldaid else r.2
        setAmbientFinish st2 slotname r.1 wasPlaying autoplay
    | none => setAmbientFinish r.2 slotname r.1 autoplay autoplay

/-- `Audio::createSource` (audio.cpp lines 392-414): if the name is already
registered, log a warning and return the existing source; otherwise load
the sound (a null buffer is tolerated), allocate a new `SoundSource` bound
to it and register it.  Note: this function has no availability guard. -/
def createSource (env : Env) (st : AudioState) (sourcename basename : String) :
    SoundSrc × AudioState :=
  match alookup st.m_sound_source sourcename with
  | some present => (present, st)
  | none =>
    let r := loadSound env st basename
    let snd : SoundSrc := { sid := r.2.nextId, m_buffer := r.1, m_relative := false }
    (snd,
      { r.2 with
        nextId := r.2.nextId + 1,
        m_sound_source := aset r.2.m_sound_source sourcename snd })

/-- `Audio::getSource` (audio.cpp lines 416-431): return the registered
source if present; otherwise log a warning, allocate an empty placeholder
source and register it under the name. -/
def getSource (st : AudioState) (sourcename : String) : SoundSrc × AudioState :=
  match alookup st.m_sound_source sourcename with
  | some present => (present, st)
  | none =>
    let snd : SoundSrc := { sid := st.nextId, m_buffer := none, m_relative := false }
    (snd,
      { st with
        nextId := st.nextId + 1,
        m_sound_source := aset st.m_sound_source sourcename snd })

/-- A 3D float vector, modelled over the integers (the claims only observe
whether the listener state is written at all). -/
structure V3 where
  x : Int
  y : Int
  z : Int
deriving DecidableEq, Repr

/-- `Audio::updateListener` (audio.cpp lines 433-461): no-op when
unavailable; otherwise pack position, velocity, derived orientation
(position minus target per axis, with the z axis inverted) and the up
vector into `m_listener` and push them to the device. -/
def updateListener (st : AudioState) (camPos camTarget camUp vel : V3) : AudioState :=
  if st.available = false then st
  else
    { st with m_listener :=
        [camPos.x, camPos.y, camPos.z,
         vel.x, vel.y, vel.z,
         camPos.x - camTarget.x, camPos.y - camTarget.y, camTarget.z - camPos.z,
         camUp.x, camUp.y, camUp.z] }

/-- The state of a freshly constructed `Audio` object before any device
call: nothing registered, counters at their start values (allocation ids
start at 1, id 0 is the model of a null pointer). -/
def emptyState : AudioState :=
  { available := false, m_path := "", cache := [], m_sound_source := [],
    ambientHeap := [], m_ambient_sound := [], m_ambient_slot := [],
    m_listener := [], nextBufID := 0, nextId := 1, events := [] }

/-- The `Audio` constructor (audio.cpp lines 216-265): open the device,
create a context, make it current; any failure leaves the system
unavailable (`isAvailable()` is declared in audio.h; modelled from the
spec lifecycle, it is false exactly when the device or context could not be
established). -/
def newAudio (env : Env) : AudioState :=
  if env.deviceOk = false then emptyState
  else if env.contextOk = false then emptyState
  else if env.makeCurrentOk = false then emptyState
  else { emptyState with available := true }

/-- `Audio::init` (audio.cpp lines 289-303): remember the search path when
it exists (only a warning otherwise), then seed the ambient registry with
an empty placeholder sound under the empty-string key.  Note: no
availability guard. -/
def init (env : Env) (st : AudioState) (path : String) : AudioState :=
  let st1 := if path ∈ env.files then { st with m_path := path } else st
  { st1 with
    nextId := st1.nextId + 1,
    ambientHeap := aset st1.ambientHeap st1.nextId { srcBuf := none, playing := false },
    m_ambient_sound := aset st1.m_ambient_sound "" st1.nextId }

/-- Number of `play` and `stop` calls recorded in an event log (the
instrumentation the spec asks for). -/
def playStopCount : List Event → Nat
  | [] => 0
  | Event.play _ :: r => playStopCount r + 1
  | Event.stop _ :: r => playStopCount r + 1
  | _ :: r => playStopCount r

theorem alookup_aset_self {κ α : Type} [DecidableEq κ] (l : List (κ × α)) (k : κ) (v : α) :
    alookup (aset l k v) k = some v := by
  induction l with
  | nil => simp [aset, alookup]
  | cons p rest ih =>
    obtain ⟨k1, v1⟩ := p
    by_cases h : k1 = k
    · simp [aset, h, alookup]
    · simp [aset, h, alookup, ih]

theorem alookup_aset_ne {κ α : Type} [DecidableEq κ] (l : List (κ × α)) (k k2 : κ) (v : α)
    (h : k ≠ k2) : alookup (aset l k v) k2 = alookup l k2 := by
  induction l with
  | nil => simp [aset, alookup, h]
  | cons p rest ih =>
    obtain ⟨k1, v1⟩ := p
    by_cases h1 : k1 = k
    · subst h1
      simp [aset, alookup, h]
    · simp [aset, h1, alookup, ih]

theorem aset_eq_of_lookup {κ α : Type} [DecidableEq κ] (l : List (κ × α)) (k : κ) (v : α)
    (h : alookup l k = some v) : aset l k v = l := by
  induction l with
  | nil => simp [alookup] at h
  | cons p rest ih =>
    obtain ⟨k1, v1⟩ := p
    by_cases h1 : k1 = k
    · subst h1
      simp [alookup] at h
      simp [aset, h]
    · simp [alookup, h1] at h
      simp [aset, h1, ih h]

theorem playStopCount_append (a b : List Event) :
    playStopCount (a ++ b) = playStopCount a + playStopCount b := by
  induction a with
  | nil => simp [playStopCount]
  | cons e r ih => cases e <;> simp [playStopCount, ih] <;> omega

theorem loadOggFile_hit (env : Env) (st : AudioState) (fname : String) (snd : SoundBuffer)
    (h : alookup st.cache fname = some snd) :
    loadOggFile env st fname = (some snd, st) := by
  unfold loadOggFile
  simp [h]

theorem loadOggFile_success (env : Env) (st : AudioState) (fname : String) (data : List Int)
    (hmiss : alookup st.cache fname = none)
    (hopen : (env.ogg fname).openOk = true)
    (hread : readLoop (env.ogg fname).reads = some data) :
    loadOggFile env st fname =
      (some { format := if (env.ogg fname).channels = 1 then ALFormat.mono16
                        else ALFormat.stereo16,
              freq := (env.ogg fname).rate, buffer := data, bufferID := st.nextBufID },
       { st with
         nextBufID := st.nextBufID + 1,
         events := (st.events ++ [Event.decode fname]) ++
           (if env.uploadError fname then [Event.uploadErr fname] else []),
         cache := aset st.cache fname
           { format := if (env.ogg fname).channels = 1 then ALFormat.mono16
                       else ALFormat.stereo16,
             freq := (env.ogg fname).rate, buffer := data, bufferID := st.nextBufID } }) := by
  unfold loadOggFile
  simp [hmiss, hopen, hread]

theorem loadOggFile_fail (env : Env) (st : AudioState) (fname : String)
    (hmiss : alookup st.cache fname = none)
    (hfail : (env.ogg fname).openOk = false ∨ readLoop (env.ogg fname).reads = none) :
    (loadOggFile env st fname).1 = none ∧
    (loadOggFile env st fname).2.cache = st.cache := by
  unfold loadOggFile
  rcases hfail with hopen | hread
  · simp [hmiss, hopen]
  · simp only [hmiss]
    rcases hop : (env.ogg fname).openOk with _ | _
    · simp
    · simp [hread]

theorem loadOggFile_frame (env : Env) (st : AudioState) (fname : String) :
    (loadOggFile env st fname).2.available = st.available ∧
    (loadOggFile env st fname).2.m_path = st.m_path ∧
    (loadOggFile env st fname).2.m_sound_source = st.m_sound_source ∧
    (loadOggFile env st fname).2.ambientHeap = st.ambientHeap ∧
    (loadOggFile env st fname).2.m_ambient_sound = st.m_ambient_sound ∧
    (loadOggFile env st fname).2.m_ambient_slot = st.m_ambient_slot ∧
    (loadOggFile env st fname).2.nextId = st.nextId ∧
    playStopCount (loadOggFile env st fname).2.events = playStopCount st.events := by
  unfold loadOggFile
  split
  · simp
  · split
    · simp
    · rcases hr : readLoop (env.ogg fname).reads with _ | data <;>
        rcases hu : env.uploadError fname with _ | _ <;>
          simp [hr, hu, playStopCount_append, playStopCount]

theorem loadSound_frame (env : Env) (st : AudioState) (basename : String) :
    (loadSound env st basename).2.available = st.available ∧
    (loadSound env st basename).2.m_path = st.m_path ∧
    (loadSound env st basename).2.m_sound_source = st.m_sound_source ∧
    (loadSound env st basename).2.ambientHeap = st.ambientHeap ∧
    (loadSound env st basename).2.m_ambient_sound = st.m_ambient_sound ∧
    (loadSound env st basename).2.m_ambient_slot = st.m_ambient_slot ∧
    (loadSound env st basename).2.nextId = st.nextId ∧
    playStopCount (loadSound env st basename).2.events = playStopCount st.events := by
  simp only [loadSound]
  split
  · simp
  · split
    · simp
    · split
      · exact loadOggFile_frame env st _
      · simp

/-- C2: For every sound name, after the first successful decode the returned
buffer is in the cache under that name, and every subsequent cache lookup of
the name — from any later state still carrying the entry, which no operation
ever removes or overwrites — returns the identical `SoundBuffer` and leaves
the state (in particular the event log) unchanged: no second decode is
performed for the process lifetime. -/
theorem cache_at_most_one_decode (env : Env) (st st1 : AudioState) (fname : String)
    (snd : SoundBuffer) (h : loadOggFile env st fname = (some snd, st1)) :
    alookup st1.cache fname = some snd ∧
    ∀ st2 : AudioState, alookup st2.cache fname = some snd →
      loadOggFile env st2 fname = (some snd, st2) := by
  refine ⟨?_, fun st2 h2 => loadOggFile_hit env st2 fname snd h2⟩
  rcases hc : alookup st.cache fname with _ | b
  · rcases hop : (env.ogg fname).openOk with _ | _
    · have hf := loadOggFile_fail env st fname hc (Or.inl hop)
      rw [h] at hf
      simp at hf
    · rcases hr : readLoop (env.ogg fname).reads with _ | data
      · have hf := loadOggFile_fail env st fname hc (Or.inr hr)
        rw [h] at hf
        simp at hf
      · have hs := loadOggFile_success env st fname data hc hop hr
        rw [h] at hs
        simp only [Prod.mk.injEq, Option.some.injEq] at hs
        obtain ⟨hsnd, hst⟩ := hs
        subst hsnd
        subst hst
        exact alookup_aset_self st.cache fname _
  · have hh := loadOggFile_hit env st fname b hc
    rw [h] at hh
    simp only [Prod.mk.injEq, Option.some.injEq] at hh
    obtain ⟨hsnd, hst⟩ := hh
    subst hsnd
    subst hst
    exact hc

/-- C3: For every file path, if the decode fails — the decoder cannot open
the file, or some read reports a negative byte count mid-stream — then
`loadOggFile` returns null and the cache is left unchanged: no entry for
that path is inserted. -/
theorem decode_failure_never_cached (env : Env) (st : AudioState) (fname : String)
    (hmiss : alookup st.cache fname = none)
    (hfail : (env.ogg fname).openOk = false ∨ readLoop (env.ogg fname).reads = none) :
    (loadOggFile env st fname).1 = none ∧
    (loadOggFile env st fname).2.cache = st.cache :=
  loadOggFile_fail env st fname hmiss hfail

/-- C4: Every successfully decoded file yields a buffer whose format is
Mono16 exactly when the channel count is 1 and Stereo16 otherwise, whose
sample rate is the stream rate verbatim, and whose payload is the result of
the read loop; and the read loop on a trace of nonempty chunks ending in a
zero-byte read is exactly the in-order concatenation of the chunks. -/
theorem decode_success_classification (env : Env) (st : AudioState) (fname : String)
    (data : List Int)
    (hmiss : alookup st.cache fname = none)
    (hopen : (env.ogg fname).openOk = true)
    (hread : readLoop (env.ogg fname).reads = some data) :
    ((loadOggFile env st fname).1 =
      some { format := if (env.ogg fname).channels = 1 then ALFormat.mono16
                       else ALFormat.stereo16,
             freq := (env.ogg fname).rate, buffer := data,
             bufferID := st.nextBufID }) ∧
    (∀ chunks : List (List Int), (∀ c ∈ chunks, c ≠ []) →
      readLoop (chunks.map ReadChunk.chunk ++ [ReadChunk.chunk []]) =
        some chunks.flatten) := by
  constructor
  · rw [loadOggFile_success env st fname data hmiss hopen hread]
  · intro chunks hc
    induction chunks with
    | nil => simp [readLoop]
    | cons c rest ih =>
      have hcne : c ≠ [] := hc c (by simp)
      have ihe := ih (fun d hd => hc d (by simp [hd]))
      simp [readLoop, hcne, ihe]

/-- C5: For every fully decoded file, when the device upload reports an
error the error is only logged: `loadOggFile` still inserts the buffer into
the cache and returns it non-null, and the event log shows exactly the
decode and the logged upload error. -/
theorem upload_error_degraded_nonnull (env : Env) (st : AudioState) (fname : String)
    (data : List Int)
    (hmiss : alookup st.cache fname = none)
    (hopen : (env.ogg fname).openOk = true)
    (hread : readLoop (env.ogg fname).reads = some data)
    (herr : env.uploadError fname = true) :
    ∃ snd : SoundBuffer, (loadOggFile env st fname).1 = some snd ∧
      alookup (loadOggFile env st fname).2.cache fname = some snd ∧
      (loadOggFile env st fname).2.events =
        st.events ++ [Event.decode fname, Event.uploadErr fname] := by
  rw [loadOggFile_success env st fname data hmiss hopen hread]
  refine ⟨_, rfl, ?_, ?_⟩
  · exact alookup_aset_self st.cache fname _
  · simp [herr]

/-- C6: For every source name and any sound names, a second `createSource`
under an already registered name returns exactly the result of the first
call — the same `SoundSource` object — and leaves the whole state (hence
the bound sound of that source and the registry entry) unchanged. -/
theorem createSource_idempotent (env : Env) (st : AudioState) (a x y : String) :
    createSource env ((createSource env st a x).2) a y = createSource env st a x := by
  rcases hc : alookup st.m_sound_source a with _ | present
  · simp [createSource, hc, alookup_aset_self]
  · simp [createSource, hc]

/-- C7: For every name never passed to `createSource`, `getSource` returns
an inert placeholder source (null buffer), registers it under that name,
and a later `getSource` of the same name returns that same placeholder with
the state unchanged. -/
theorem getSource_placeholder (st : AudioState) (n : String)
    (h : alookup st.m_sound_source n = none) :
    (getSource st n).1.m_buffer = none ∧
    alookup (getSource st n).2.m_sound_source n = some (getSource st n).1 ∧
    getSource ((getSource st n).2) n = ((getSource st n).1, (getSource st n).2) := by
  refine ⟨?_, ?_, ?_⟩ <;> simp [getSource, h, alookup_aset_self]

/-- Environment in which the audio device cannot be opened
(`alcOpenDevice` returns null). -/
def envNoDevice : Env :=
  { files := ["snd/"],
    ogg := fun _ => { openOk := false, channels := 0, rate := 0, reads := [] },
    uploadError := fun _ => false,
    deviceOk := false, contextOk := true, makeCurrentOk := true }

/-- The state after constructing the audio system with no device and
calling `init`: Unavailable, with only the placeholder ambient seeded. -/
def stNoDevice : AudioState := init envNoDevice (newAudio envNoDevice) "snd/"

/-- C1 counterexample: with the device unavailable, after `init` a single
`createSource` call registers a new (non-null, inert) source: the source
registry mutates beyond the Unavailable flag, contradicting the claim that
every `createSource` call then returns null without mutating internal
state.  (`createSource`, audio.cpp lines 392-414, has no availability
guard, unlike `setAmbient` and `updateListener`.) -/
theorem c1_unavailable_createSource_mutates :
    stNoDevice.available = false ∧
    (createSource envNoDevice stNoDevice "a" "x").2.m_sound_source ≠
      stNoDevice.m_sound_source := by
  exact ⟨rfl, by decide⟩

/-- C1 amended: if the device cannot be opened then, after `init`, every
`setAmbient` and `updateListener` call is a total no-op on the state; a
`createSource` call under a fresh name, however, returns a non-null inert
placeholder source (null buffer) and registers it — touching only the
source registry and the allocation counter, never the cache or the ambient
registries. -/
theorem unavailable_operations (env : Env) (st : AudioState)
    (slot base a x : String) (auto : Bool) (p t u v : V3)
    (hun : st.available = false)
    (hnew : alookup st.m_sound_source a = none) :
    setAmbient env st slot base auto = st ∧
    updateListener st p t u v = st ∧
    (createSource env st a x).1.m_buffer = none ∧
    (createSource env st a x).2 =
      { st with
        nextId := st.nextId + 1,
        m_sound_source := aset st.m_sound_source a
          { sid := st.nextId, m_buffer := none, m_relative := false } } := by
  refine ⟨?_, ?_, ?_, ?_⟩
  · simp [setAmbient, hun]
  · simp [updateListener, hun]
  · simp [createSource, hnew, loadSound, hun]
  · simp [createSource, hnew, loadSound, hun]

/-- C10: For every basename whose `.ogg` candidate does not exist under the
search root while its `.wav` candidate does, `findSoundFile` returns the
`.wav` path tagged `LOADER_WAV`, yet `loadSound` returns null with the
state unchanged: only Ogg Vorbis files can produce a `SoundBuffer`, even
though the extension table lists both formats. -/
theorem wav_found_but_no_loader (env : Env) (st : AudioState) (basename : String)
    (hav : st.available = true)
    (hogg : (st.m_path ++ basename ++ ".ogg") ∉ env.files)
    (hwav : (st.m_path ++ basename ++ ".wav") ∈ env.files) :
    findSoundFile env st.m_path basename = (st.m_path ++ basename ++ ".wav", LOADER_WAV) ∧
    loadSound env st basename = (none, st) := by
  have hassoc : ∀ e : String, st.m_path ++ basename ++ "." ++ e = st.m_path ++ basename ++ ("." ++ e) := by
    intro e
    rw [String.append_assoc]
  have hogg2 : (st.m_path ++ basename ++ "." ++ "ogg") ∉ env.files := by
    rw [hassoc]
    exact hogg
  have hwav2 : (st.m_path ++ basename ++ "." ++ "wav") ∈ env.files := by
    rw [hassoc]
    exact hwav
  have hfind : findSoundFile env st.m_path basename =
      (st.m_path ++ basename ++ ".wav", LOADER_WAV) := by
    simp only [findSoundFile, extensions, findLoop, LOADER_VORBIS, LOADER_WAV]
    rw [if_neg hogg2, if_pos hwav2, hassoc]
    have hw : ("." ++ "wav" : String) = ".wav" := rfl
    rw [hw]
  refine ⟨hfind, ?_⟩
  have hne : st.m_path ++ basename ++ ".wav" ≠ "" := by
    intro hcontra
    have h2 := congrArg String.data hcontra
    simp [String.data_append] at h2
  simp only [loadSound, hav, Bool.true_eq_false, if_false, hfind]
  rw [if_neg hne]
  simp [LOADER_WAV, LOADER_VORBIS]

theorem ambPlay_frame (st : AudioState) (aid : Nat) :
    (ambPlay st aid).available = st.available ∧
    (ambPlay st aid).m_path = st.m_path ∧
    (ambPlay st aid).cache = st.cache ∧
    (ambPlay st aid).m_sound_source = st.m_sound_source ∧
    (ambPlay st aid).m_ambient_sound = st.m_ambient_sound ∧
    (ambPlay st aid).m_ambient_slot = st.m_ambient_slot ∧
    (ambPlay st aid).nextId = st.nextId ∧
    (ambPlay st aid).events = st.events ++ [Event.play aid] := by
  simp only [ambPlay]
  split
  · split <;> simp
  · simp

theorem ambStop_frame (st : AudioState) (aid : Nat) :
    (ambStop st aid).available = st.available ∧
    (ambStop st aid).m_path = st.m_path ∧
    (ambStop st aid).cache = st.cache ∧
    (ambStop st aid).m_sound_source = st.m_sound_source ∧
    (ambStop st aid).m_ambient_sound = st.m_ambient_sound ∧
    (ambStop st aid).m_ambient_slot = st.m_ambient_slot ∧
    (ambStop st aid).nextId = st.nextId ∧
    (ambStop st aid).events = st.events ++ [Event.stop aid] := by
  simp only [ambStop]
  split
  · split <;> simp
  · simp

theorem ambStop_heap_other (st : AudioState) (aid pid : Nat) (h : aid ≠ pid) :
    alookup (ambStop st aid).ambientHeap pid = alookup st.ambientHeap pid := by
  simp only [ambStop]
  split
  · split
    · simp [alookup_aset_ne _ _ _ _ h]
    · simp
  · simp

theorem ambPlay_heap_other (st : AudioState) (aid pid : Nat) (h : aid ≠ pid) :
    alookup (ambPlay st aid).ambientHeap pid = alookup st.ambientHeap pid := by
  simp only [ambPlay]
  split
  · split
    · simp [alookup_aset_ne _ _ _ _ h]
    · simp
  · simp

theorem loadOggFile_none_cache (env : Env) (st : AudioState) (f : String)
    (h : (loadOggFile env st f).1 = none) :
    (loadOggFile env st f).2.cache = st.cache := by
  rcases hc : alookup st.cache f with _ | b
  · rcases hop : (env.ogg f).openOk with _ | _
    · exact (loadOggFile_fail env st f hc (Or.inl hop)).2
    · rcases hr : readLoop (env.ogg f).reads with _ | data
      · exact (loadOggFile_fail env st f hc (Or.inr hr)).2
      · rw [loadOggFile_success env st f data hc hop hr] at h
        simp at h
  · rw [loadOggFile_hit env st f b hc] at h
    simp at h

theorem loadOggFile_none_again (env : Env) (st st2 : AudioState) (f : String)
    (h : (loadOggFile env st f).1 = none) (hc2 : st2.cache = st.cache) :
    (loadOggFile env st2 f).1 = none := by
  rcases hc : alookup st.cache f with _ | b
  · rcases hop : (env.ogg f).openOk with _ | _
    · exact (loadOggFile_fail env st2 f (hc2 ▸ hc) (Or.inl hop)).1
    · rcases hr : readLoop (env.ogg f).reads with _ | data
      · exact (loadOggFile_fail env st2 f (hc2 ▸ hc) (Or.inr hr)).1
      · rw [loadOggFile_success env st f data hc hop hr] at h
        simp at h
  · rw [loadOggFile_hit env st f b hc] at h
    simp at h

theorem loadSound_none_cache (env : Env) (st : AudioState) (b : String)
    (h : (loadSound env st b).1 = none) :
    (loadSound env st b).2.cache = st.cache := by
  simp only [loadSound] at h ⊢
  split at h <;> rename_i h1
  · simp [h1]
  · split at h <;> rename_i h2
    · simp [h1, h2]
    · split at h <;> rename_i h3
      · simp only [if_neg h1, if_neg h2, if_pos h3]
        exact loadOggFile_none_cache env st _ h
      · simp [h1, h2, h3]

theorem loadSound_none_again (env : Env) (st st2 : AudioState) (b : String)
    (h : (loadSound env st b).1 = none)
    (hav : st2.available = st.available) (hp : st2.m_path = st.m_path)
    (hc : st2.cache = st.cache) :
    (loadSound env st2 b).1 = none := by
  simp only [loadSound, hav, hp] at *
  split at h
  · simp [*]
  · split at h
    · simp [*]
    · split at h
      · rename_i h1 h2 h3
        simp only [if_neg h1, if_neg h2, if_pos h3]
        exact loadOggFile_none_again env st st2 _ h hc
      · simp [*]

theorem getAmbientSound_unavail (env : Env) (st : AudioState) (s : String)
    (h : st.available = false) : getAmbientSound env st s = (none, st) := by
  simp [getAmbientSound, h]

theorem getAmbientSound_hit (env : Env) (st : AudioState) (s : String) (aid : Nat)
    (hav : st.available = true) (hc : alookup st.m_ambient_sound s = some aid) :
    getAmbientSound env st s = (some aid, st) := by
  simp [getAmbientSound, hav, hc]

theorem getAmbientSound_fail (env : Env) (st : AudioState) (s : String)
    (hav : st.available = true) (hc : alookup st.m_ambient_sound s = none)
    (hl : (loadSound env st s).1 = none) :
    getAmbientSound env st s = (none, (loadSound env st s).2) := by
  simp [getAmbientSound, hav, hc, hl]

theorem getAmbientSound_fresh (env : Env) (st : AudioState) (s : String) (data : SoundBuffer)
    (hav : st.available = true) (hc : alookup st.m_ambient_sound s = none)
    (hl : (loadSound env st s).1 = some data) :
    getAmbientSound env st s =
      (some (loadSound env st s).2.nextId,
       { (loadSound env st s).2 with
         nextId := (loadSound env st s).2.nextId + 1,
         ambientHeap := aset (loadSound env st s).2.ambientHeap (loadSound env st s).2.nextId
           { srcBuf := some data, playing := false },
         m_ambient_sound := aset (loadSound env st s).2.m_ambient_sound s
           (loadSound env st s).2.nextId }) := by
  simp [getAmbientSound, hav, hc, hl]

theorem getAmbientSound_resolved (env : Env) (st : AudioState) (s : String) (aid : Nat)
    (hav : st.available = true)
    (h : (getAmbientSound env st s).1 = some aid) :
    (getAmbientSound env st s).2.available = true ∧
    alookup (getAmbientSound env st s).2.m_ambient_sound s = some aid := by
  rcases hc : alookup st.m_ambient_sound s with _ | aid2
  · rcases hl : (loadSound env st s).1 with _ | data
    · rw [getAmbientSound_fail env st s hav hc hl] at h
      simp at h
    · rw [getAmbientSound_fresh env st s data hav hc hl] at h ⊢
      simp only [Option.some.injEq] at h
      subst h
      refine ⟨?_, ?_⟩
      · simp [(loadSound_frame env st s).1, hav]
      · simp [alookup_aset_self]
  · rw [getAmbientSound_hit env st s aid2 hav hc] at h ⊢
    simp only [Option.some.injEq] at h
    subst h
    exact ⟨hav, hc⟩

theorem getAmbientSound_seed (env : Env) (st : AudioState) (s : String) (pid : Nat)
    (hseed : alookup st.m_ambient_sound "" = some pid) :
    alookup (getAmbientSound env st s).2.m_ambient_sound "" = some pid := by
  rcases hav : st.available with _ | _
  · rw [getAmbientSound_unavail env st s hav]
    exact hseed
  · rcases hc : alookup st.m_ambient_sound s with _ | aid2
    · rcases hl : (loadSound env st s).1 with _ | data
      · rw [getAmbientSound_fail env st s hav hc hl]
        rw [(loadSound_frame env st s).2.2.2.2.1]
        exact hseed
      · rw [getAmbientSound_fresh env st s data hav hc hl]
        have hne : s ≠ "" := by
          intro he
          rw [he, hseed] at hc
          cases hc
        simp [alookup_aset_ne _ _ _ _ hne, (loadSound_frame env st s).2.2.2.2.1, hseed]
    · rw [getAmbientSound_hit env st s aid2 hav hc]
      exact hseed

theorem setAmbientFinish_some (st : AudioState) (slot : String) (aid : Nat)
    (wasPlaying auto : Bool) :
    (setAmbientFinish st slot (some aid) wasPlaying auto).available = st.available ∧
    (setAmbientFinish st slot (some aid) wasPlaying auto).m_path = st.m_path ∧
    (setAmbientFinish st slot (some aid) wasPlaying auto).cache = st.cache ∧
    (setAmbientFinish st slot (some aid) wasPlaying auto).m_ambient_sound =
      st.m_ambient_sound ∧
    (setAmbientFinish st slot (some aid) wasPlaying auto).m_ambient_slot =
      aset st.m_ambient_slot slot aid ∧
    (setAmbientFinish st slot (some aid) wasPlaying auto).events =
      st.events ++ (if wasPlaying || auto then [Event.play aid] else []) := by
  simp only [setAmbientFinish]
  split <;> rename_i hcond
  · have hf := ambPlay_frame st aid
    simp [hf.1, hf.2.1, hf.2.2.1, hf.2.2.2.2.1, hf.2.2.2.2.2.1, hf.2.2.2.2.2.2.2, hcond]
  · simp [hcond]

theorem setAmbientFinish_none (st : AudioState) (slot : String)
    (wasPlaying auto : Bool) (pid : Nat)
    (hseed : alookup st.m_ambient_sound "" = some pid) :
    setAmbientFinish st slot none wasPlaying auto =
      { st with m_ambient_slot := aset st.m_ambient_slot slot pid } := by
  simp [setAmbientFinish, hseed]

/-- A `setAmbient` call on a state whose slot already holds exactly the
ambient sound registered for the name is a complete no-op. -/
theorem setAmbient_noop_of_slot_holds (env : Env) (st : AudioState)
    (slot s : String) (auto : Bool) (aid : Nat)
    (hav : st.available = true)
    (hsound : alookup st.m_ambient_sound s = some aid)
    (hslot : alookup st.m_ambient_slot slot = some aid) :
    setAmbient env st slot s auto = st := by
  simp only [setAmbient, hav]
  rw [getAmbientSound_hit env st s aid hav hsound]
  simp [hslot]

/-- After a `setAmbient` call whose name resolved to an ambient sound, the
state is Active, the name is registered to that sound and the slot holds
it. -/
theorem setAmbient_establishes (env : Env) (st : AudioState)
    (slot s : String) (auto : Bool) (aid : Nat)
    (hav : st.available = true)
    (hres : (getAmbientSound env st s).1 = some aid) :
    (setAmbient env st slot s auto).available = true ∧
    alookup (setAmbient env st slot s auto).m_ambient_sound s = some aid ∧
    alookup (setAmbient env st slot s auto).m_ambient_slot slot = some aid := by
  obtain ⟨hgav, hgsound⟩ := getAmbientSound_resolved env st s aid hav hres
  simp only [setAmbient, hav, Bool.true_eq_false, if_false]
  rcases hslot : alookup (getAmbientSound env st s).2.m_ambient_slot slot with _ | oldaid
  · simp only [hslot]
    rw [hres]
    have hfin := setAmbientFinish_some (getAmbientSound env st s).2 slot aid auto auto
    rw [hfin.1, hfin.2.2.2.1, hfin.2.2.2.2.1]
    exact ⟨hgav, hgsound, alookup_aset_self _ _ _⟩
  · simp only [hslot]
    rw [hres]
    by_cases heq : aid = oldaid
    · subst heq
      simp only [if_pos rfl]
      exact ⟨hgav, hgsound, hslot⟩
    · rw [if_neg (by simpa using heq)]
      rcases hwp : ambIsPlaying (getAmbientSound env st s).2 oldaid with _ | _
      · simp only [hwp, Bool.false_eq_true, if_false]
        have hfin := setAmbientFinish_some (getAmbientSound env st s).2 slot aid false auto
        rw [hfin.1, hfin.2.2.2.1, hfin.2.2.2.2.1]
        exact ⟨hgav, hgsound, alookup_aset_self _ _ _⟩
      · simp only [hwp, if_true]
        have hst := ambStop_frame (getAmbientSound env st s).2 oldaid
        have hfin := setAmbientFinish_some (ambStop (getAmbientSound env st s).2 oldaid)
          slot aid true auto
        rw [hfin.1, hfin.2.2.2.1, hfin.2.2.2.2.1]
        rw [hst.1, hst.2.2.2.2.1]
        exact ⟨hgav, hgsound, alookup_aset_self _ _ _⟩

/-- After a `setAmbient` call whose name failed to resolve, on a state whose
empty-string placeholder is seeded and inert: the state stays Active with
path, cache and ambient-name registry untouched, the placeholder stays
inert, the slot holds the placeholder, and — when the slot already held the
placeholder — no play or stop call was made. -/
theorem setAmbient_fail_establishes (env : Env) (st : AudioState)
    (slot s : String) (auto : Bool) (pid : Nat)
    (hav : st.available = true)
    (hseed : alookup st.m_ambient_sound "" = some pid)
    (hph : alookup st.ambientHeap pid = some { srcBuf := none, playing := false })
    (hres : (getAmbientSound env st s).1 = none) :
    (setAmbient env st slot s auto).available = true ∧
    (setAmbient env st slot s auto).m_path = st.m_path ∧
    (setAmbient env st slot s auto).cache = st.cache ∧
    (setAmbient env st slot s auto).m_ambient_sound = st.m_ambient_sound ∧
    alookup (setAmbient env st slot s auto).ambientHeap pid =
      some { srcBuf := none, playing := false } ∧
    alookup (setAmbient env st slot s auto).m_ambient_slot slot = some pid ∧
    (alookup st.m_ambient_slot slot = some pid →
      playStopCount (setAmbient env st slot s auto).events = playStopCount st.events) := by
  have hc : alookup st.m_ambient_sound s = none := by
    rcases hc2 : alookup st.m_ambient_sound s with _ | aid2
    · rfl
    · rw [getAmbientSound_hit env st s aid2 hav hc2] at hres
      simp at hres
  have hl : (loadSound env st s).1 = none := by
    rcases hl2 : (loadSound env st s).1 with _ | data
    · rfl
    · rw [getAmbientSound_fresh env st s data hav hc hl2] at hres
      simp at hres
  have hg2 : (getAmbientSound env st s).2 = (loadSound env st s).2 := by
    rw [getAmbientSound_fail env st s hav hc hl]
  have hLf := loadSound_frame env st s
  have hLcache := loadSound_none_cache env st s hl
  have hLav : (loadSound env st s).2.available = true := by
    rw [hLf.1]
    exact hav
  have hLseed : alookup (loadSound env st s).2.m_ambient_sound "" = some pid := by
    rw [hLf.2.2.2.2.1]
    exact hseed
  have hLph : alookup (loadSound env st s).2.ambientHeap pid =
      some { srcBuf := none, playing := false } := by
    rw [hLf.2.2.2.1]
    exact hph
  have hLnp : ambIsPlaying (loadSound env st s).2 pid = false := by
    simp [ambIsPlaying, hLph]
  simp only [setAmbient, hav, Bool.true_eq_false, if_false, hres, hg2]
  rcases hsl : alookup (loadSound env st s).2.m_ambient_slot slot with _ | old0
  · simp only [hsl]
    rw [setAmbientFinish_none (loadSound env st s).2 slot auto auto pid hLseed]
    refine ⟨hLav, hLf.2.1, hLcache, hLf.2.2.2.2.1, hLph, alookup_aset_self _ _ _, ?_⟩
    intro _
    exact hLf.2.2.2.2.2.2.2
  · simp only [hsl]
    rw [if_neg (fun hcontra => Option.noConfusion hcontra)]
    rcases hwp : ambIsPlaying (loadSound env st s).2 old0 with _ | _
    · simp only [hwp, Bool.false_eq_true, if_false]
      rw [setAmbientFinish_none (loadSound env st s).2 slot false auto pid hLseed]
      refine ⟨hLav, hLf.2.1, hLcache, hLf.2.2.2.2.1, hLph, alookup_aset_self _ _ _, ?_⟩
      intro _
      exact hLf.2.2.2.2.2.2.2
    · simp only [hwp, if_true]
      have hne : old0 ≠ pid := by
        intro he
        subst he
        rw [hLnp] at hwp
        cases hwp
      have hSf := ambStop_frame (loadSound env st s).2 old0
      have hSseed : alookup (ambStop (loadSound env st s).2 old0).m_ambient_sound "" =
          some pid := by
        rw [hSf.2.2.2.2.1]
        exact hLseed
      rw [setAmbientFinish_none (ambStop (loadSound env st s).2 old0) slot true auto pid hSseed]
      refine ⟨?_, ?_, ?_, ?_, ?_, alookup_aset_self _ _ _, ?_⟩
      · show (ambStop (loadSound env st s).2 old0).available = true
        rw [hSf.1]
        exact hLav
      · show (ambStop (loadSound env st s).2 old0).m_path = st.m_path
        rw [hSf.2.1]
        exact hLf.2.1
      · show (ambStop (loadSound env st s).2 old0).cache = st.cache
        rw [hSf.2.2.1]
        exact hLcache
      · show (ambStop (loadSound env st s).2 old0).m_ambient_sound = st.m_ambient_sound
        rw [hSf.2.2.2.2.1]
        exact hLf.2.2.2.2.1
      · show alookup (ambStop (loadSound env st s).2 old0).ambientHeap pid =
          some { srcBuf := none, playing := false }
        rw [ambStop_heap_other _ _ _ hne]
        exact hLph
      · intro hslotst
        rw [hLf.2.2.2.2.2.1, hslotst] at hsl
        cases hsl
        exact absurd rfl hne

/-- C8: For every slot and sound name, calling `setAmbient` twice in
succession with identical arguments makes the second call a no-op: the
slot occupant after the second call is the occupant after the first, and
the second call issues no play or stop call (the play/stop call count of
the event log does not change).  The state is only assumed to carry the
inert empty-string placeholder that `init` seeds. -/
theorem setAmbient_repeat_noop (env : Env) (st : AudioState) (slot s : String)
    (auto : Bool) (pid : Nat)
    (hseed : alookup st.m_ambient_sound "" = some pid)
    (hph : alookup st.ambientHeap pid = some { srcBuf := none, playing := false }) :
    alookup (setAmbient env (setAmbient env st slot s auto) slot s auto).m_ambient_slot
        slot =
      alookup (setAmbient env st slot s auto).m_ambient_slot slot ∧
    playStopCount (setAmbient env (setAmbient env st slot s auto) slot s auto).events =
      playStopCount (setAmbient env st slot s auto).events := by
  rcases hav : st.available with _ | _
  · have h1 : setAmbient env st slot s auto = st := by simp [setAmbient, hav]
    rw [h1]
    rw [h1]
    exact ⟨rfl, rfl⟩
  · rcases hres : (getAmbientSound env st s).1 with _ | aid
    · have hE := setAmbient_fail_establishes env st slot s auto pid hav hseed hph hres
      have hc : alookup st.m_ambient_sound s = none := by
        rcases hc2 : alookup st.m_ambient_sound s with _ | aid2
        · rfl
        · rw [getAmbientSound_hit env st s aid2 hav hc2] at hres
          simp at hres
      have hl : (loadSound env st s).1 = none := by
        rcases hl2 : (loadSound env st s).1 with _ | data
        · rfl
        · rw [getAmbientSound_fresh env st s data hav hc hl2] at hres
          simp at hres
      have hl1 : (loadSound env (setAmbient env st slot s auto) s).1 = none := by
        apply loadSound_none_again env st _ s hl
        · rw [hE.1, hav]
        · exact hE.2.1
        · exact hE.2.2.1
      have hc1 : alookup (setAmbient env st slot s auto).m_ambient_sound s = none := by
        rw [hE.2.2.2.1]
        exact hc
      have hres1 : (getAmbientSound env (setAmbient env st slot s auto) s).1 = none := by
        rw [getAmbientSound_fail env _ s hE.1 hc1 hl1]
      have hseed1 : alookup (setAmbient env st slot s auto).m_ambient_sound "" =
          some pid := by
        rw [hE.2.2.2.1]
        exact hseed
      have hE2 := setAmbient_fail_establishes env (setAmbient env st slot s auto)
        slot s auto pid hE.1 hseed1 hE.2.2.2.2.1 hres1
      refine ⟨?_, hE2.2.2.2.2.2.2 hE.2.2.2.2.2.1⟩
      rw [hE2.2.2.2.2.2.1, hE.2.2.2.2.2.1]
    · have hest := setAmbient_establishes env st slot s auto aid hav hres
      have hnoop := setAmbient_noop_of_slot_holds env (setAmbient env st slot s auto)
        slot s auto aid hest.1 hest.2.1 hest.2.2
      rw [hnoop]
      exact ⟨rfl, rfl⟩

/-- C9: For every `setAmbient` call in the Active state whose slot does not
already hold the resolved sound: when the name resolves, the previous
occupant is stopped exactly if it was playing, the new sound is played
exactly when the previous occupant was playing or autoplay is requested
(the event log grows by exactly that stop and that play, in this order),
and the new sound is installed in the slot; when the name fails to
resolve, the slot is installed with the universal empty placeholder — a
slot is never left unset once assigned. -/
theorem setAmbient_switch_semantics (env : Env) (st : AudioState)
    (slot s : String) (auto : Bool) (pid : Nat)
    (hav : st.available = true)
    (hseed : alookup st.m_ambient_sound "" = some pid) :
    (∀ aid : Nat, (getAmbientSound env st s).1 = some aid →
      alookup (getAmbientSound env st s).2.m_ambient_slot slot ≠ some aid →
      alookup (setAmbient env st slot s auto).m_ambient_slot slot = some aid ∧
      (setAmbient env st slot s auto).events =
        (getAmbientSound env st s).2.events ++
          (match alookup (getAmbientSound env st s).2.m_ambient_slot slot with
           | some o => if ambIsPlaying (getAmbientSound env st s).2 o
                       then [Event.stop o] else []
           | none => []) ++
          (if (match alookup (getAmbientSound env st s).2.m_ambient_slot slot with
               | some o => ambIsPlaying (getAmbientSound env st s).2 o
               | none => false) || auto
           then [Event.play aid] else [])) ∧
    ((getAmbientSound env st s).1 = none →
      alookup (setAmbient env st slot s auto).m_ambient_slot slot = some pid) := by
  constructor
  · intro aid hres hne
    simp only [setAmbient, hav, Bool.true_eq_false, if_false, hres]
    rcases hsl : alookup (getAmbientSound env st s).2.m_ambient_slot slot with _ | old0
    · simp only [hsl]
      have hfin := setAmbientFinish_some (getAmbientSound env st s).2 slot aid auto auto
      refine ⟨?_, ?_⟩
      · rw [hfin.2.2.2.2.1]
        exact alookup_aset_self _ _ _
      · rw [hfin.2.2.2.2.2]
        simp
    · simp only [hsl]
      rw [hsl] at hne
      have hneq : ¬((some aid : Option Nat) = some old0) := fun hcontra => hne hcontra.symm
      rw [if_neg hneq]
      rcases Bool.eq_false_or_eq_true (ambIsPlaying (getAmbientSound env st s).2 old0)
        with hwp | hwp
      · simp only [hwp, if_true]
        have hSf := ambStop_frame (getAmbientSound env st s).2 old0
        have hfin := setAmbientFinish_some (ambStop (getAmbientSound env st s).2 old0)
          slot aid true auto
        refine ⟨?_, ?_⟩
        · rw [hfin.2.2.2.2.1]
          exact alookup_aset_self _ _ _
        · rw [hfin.2.2.2.2.2, hSf.2.2.2.2.2.2.2]
      · simp only [hwp, Bool.false_eq_true, if_false]
        have hfin := setAmbientFinish_some (getAmbientSound env st s).2 slot aid false auto
        refine ⟨?_, ?_⟩
        · rw [hfin.2.2.2.2.1]
          exact alookup_aset_self _ _ _
        · rw [hfin.2.2.2.2.2]
          simp
  · intro hres
    have hseed2 := getAmbientSound_seed env st s pid hseed
    simp only [setAmbient, hav, Bool.true_eq_false, if_false, hres]
    rcases hsl : alookup (getAmbientSound env st s).2.m_ambient_slot slot with _ | old0
    · simp only [hsl]
      rw [setAmbientFinish_none (getAmbientSound env st s).2 slot auto auto pid hseed2]
      exact alookup_aset_self _ _ _
    · simp only [hsl]
      rw [if_neg (fun hcontra => Option.noConfusion hcontra)]
      rcases hwp : ambIsPlaying (getAmbientSound env st s).2 old0 with _ | _
      · simp only [hwp, Bool.false_eq_true, if_false]
        rw [setAmbientFinish_none (getAmbientSound env st s).2 slot false auto pid hseed2]
        exact alookup_aset_self _ _ _
      · simp only [hwp, if_true]
        have hSf := ambStop_frame (getAmbientSound env st s).2 old0
        have hSseed : alookup (ambStop (getAmbientSound env st s).2 old0).m_ambient_sound
            "" = some pid := by
          rw [hSf.2.2.2.2.1]
          exact hseed2
        rw [setAmbientFinish_none (ambStop (getAmbientSound env st s).2 old0) slot true
          auto pid hSseed]
        exact alookup_aset_self _ _ _

/-- A concrete environment with a working device, one decodable mono ogg
file, one ogg file whose stream errors mid-read, and one wav file. -/
def envDemo : Env :=
  { files := ["snd/", "snd/a.ogg", "snd/b.wav"],
    ogg := fun f =>
      if f = "snd/a.ogg" then
        { openOk := true, channels := 1, rate := 44100,
          reads := [ReadChunk.chunk [1, 2], ReadChunk.chunk []] }
      else if f = "snd/bad.ogg" then
        { openOk := true, channels := 2, rate := 22050,
          reads := [ReadChunk.chunk [5], ReadChunk.err] }
      else { openOk := false, channels := 0, rate := 0, reads := [] },
    uploadError := fun _ => false,
    deviceOk := true, contextOk := true, makeCurrentOk := true }

/-- The demo state right after construction and `init`. -/
def stDemo : AudioState := init envDemo (newAudio envDemo) "snd/"

/-- The demo environment with a failing device-buffer upload. -/
def envDemoErr : Env :=
  { envDemo with uploadError := fun _ => true }

/-- The state after construction and `init` under `envDemoErr`. -/
def stDemoErr : AudioState := init envDemoErr (newAudio envDemoErr) "snd/"

/-- The buffer decoded from the demo mono file. -/
def sndA : SoundBuffer :=
  { format := ALFormat.mono16, freq := 44100, buffer := [1, 2], bufferID := 0 }

/-- Witness for C2: the demo decode caches the buffer, and every later
lookup returns the identical buffer without touching the state. -/
theorem cache_at_most_one_decode_witness :
    alookup (loadOggFile envDemo stDemo "snd/a.ogg").2.cache "snd/a.ogg" = some sndA ∧
    ∀ st2 : AudioState, alookup st2.cache "snd/a.ogg" = some sndA →
      loadOggFile envDemo st2 "snd/a.ogg" = (some sndA, st2) :=
  cache_at_most_one_decode envDemo stDemo (loadOggFile envDemo stDemo "snd/a.ogg").2
    "snd/a.ogg" sndA rfl

/-- Witness for C3: a mid-stream read error on the demo file yields null and
an unchanged cache. -/
theorem decode_failure_never_cached_witness :
    (loadOggFile envDemo stDemo "snd/bad.ogg").1 = none ∧
    (loadOggFile envDemo stDemo "snd/bad.ogg").2.cache = stDemo.cache :=
  decode_failure_never_cached envDemo stDemo "snd/bad.ogg" rfl (Or.inr rfl)

/-- Witness for C4: the demo mono file decodes to Mono16 at its stream rate
with the concatenated payload. -/
theorem decode_success_classification_witness :
    ((loadOggFile envDemo stDemo "snd/a.ogg").1 = some sndA) ∧
    (∀ chunks : List (List Int), (∀ c ∈ chunks, c ≠ []) →
      readLoop (chunks.map ReadChunk.chunk ++ [ReadChunk.chunk []]) =
        some chunks.flatten) :=
  decode_success_classification envDemo stDemo "snd/a.ogg" [1, 2] rfl rfl rfl

/-- Witness for C5: with a failing upload the demo decode still caches and
returns the buffer, logging the upload error. -/
theorem upload_error_degraded_nonnull_witness :
    ∃ snd : SoundBuffer, (loadOggFile envDemoErr stDemoErr "snd/a.ogg").1 = some snd ∧
      alookup (loadOggFile envDemoErr stDemoErr "snd/a.ogg").2.cache "snd/a.ogg" =
        some snd ∧
      (loadOggFile envDemoErr stDemoErr "snd/a.ogg").2.events =
        stDemoErr.events ++ [Event.decode "snd/a.ogg", Event.uploadErr "snd/a.ogg"] :=
  upload_error_degraded_nonnull envDemoErr stDemoErr "snd/a.ogg" [1, 2] rfl rfl rfl rfl

/-- Witness for C7: a never-created name yields a registered inert
placeholder that a later lookup returns unchanged. -/
theorem getSource_placeholder_witness :
    (getSource stDemo "never").1.m_buffer = none ∧
    alookup (getSource stDemo "never").2.m_sound_source "never" =
      some (getSource stDemo "never").1 ∧
    getSource ((getSource stDemo "never").2) "never" =
      ((getSource stDemo "never").1, (getSource stDemo "never").2) :=
  getSource_placeholder stDemo "never" rfl

/-- Witness for C1 (amended): with no device, setAmbient and updateListener
are no-ops while createSource registers and returns an inert placeholder. -/
theorem unavailable_operations_witness :
    setAmbient envNoDevice stNoDevice "slot" "x" true = stNoDevice ∧
    updateListener stNoDevice ⟨0, 0, 0⟩ ⟨0, 0, 1⟩ ⟨0, 1, 0⟩ ⟨0, 0, 0⟩ = stNoDevice ∧
    (createSource envNoDevice stNoDevice "a" "x").1.m_buffer = none ∧
    (createSource envNoDevice stNoDevice "a" "x").2 =
      { stNoDevice with
        nextId := stNoDevice.nextId + 1,
        m_sound_source := aset stNoDevice.m_sound_source "a"
          { sid := stNoDevice.nextId, m_buffer := none, m_relative := false } } :=
  unavailable_operations envNoDevice stNoDevice "slot" "x" "a" "x" true
    ⟨0, 0, 0⟩ ⟨0, 0, 1⟩ ⟨0, 1, 0⟩ ⟨0, 0, 0⟩ rfl rfl

/-- Witness for C8: assigning the demo sound to a slot twice leaves the
occupant alone and issues no further play or stop call. -/
theorem setAmbient_repeat_noop_witness :
    alookup (setAmbient envDemo (setAmbient envDemo stDemo "w" "a" true)
        "w" "a" true).m_ambient_slot "w" =
      alookup (setAmbient envDemo stDemo "w" "a" true).m_ambient_slot "w" ∧
    playStopCount (setAmbient envDemo (setAmbient envDemo stDemo "w" "a" true)
        "w" "a" true).events =
      playStopCount (setAmbient envDemo stDemo "w" "a" true).events :=
  setAmbient_repeat_noop envDemo stDemo "w" "a" true 1 rfl rfl

/-- Witness for C9: the switch semantics at the demo state. -/
theorem setAmbient_switch_semantics_witness :
    (∀ aid : Nat, (getAmbientSound envDemo stDemo "a").1 = some aid →
      alookup (getAmbientSound envDemo stDemo "a").2.m_ambient_slot "w" ≠ some aid →
      alookup (setAmbient envDemo stDemo "w" "a" true).m_ambient_slot "w" = some aid ∧
      (setAmbient envDemo stDemo "w" "a" true).events =
        (getAmbientSound envDemo stDemo "a").2.events ++
          (match alookup (getAmbientSound envDemo stDemo "a").2.m_ambient_slot "w" with
           | some o => if ambIsPlaying (getAmbientSound envDemo stDemo "a").2 o
                       then [Event.stop o] else []
           | none => []) ++
          (if (match alookup (getAmbientSound envDemo stDemo "a").2.m_ambient_slot "w" with
               | some o => ambIsPlaying (getAmbientSound envDemo stDemo "a").2 o
               | none => false) || true
           then [Event.play aid] else [])) ∧
    ((getAmbientSound envDemo stDemo "a").1 = none →
      alookup (setAmbient envDemo stDemo "w" "a" true).m_ambient_slot "w" = some 1) :=
  setAmbient_switch_semantics envDemo stDemo "w" "a" true 1 rfl rfl

/-- Witness for C10: basename b has only a wav candidate; it is found and
tagged, but not loaded. -/
theorem wav_found_but_no_loader_witness :
    findSoundFile envDemo stDemo.m_path "b" =
      (stDemo.m_path ++ "b" ++ ".wav", LOADER_WAV) ∧
    loadSound envDemo stDemo "b" = (none, stDemo) :=
  wav_found_but_no_loader envDemo stDemo "b" rfl (by decide) (by decide)

end MinetestAudio
